import Mathlib

/-!
Shallow embedding of the payment_gateway repository core
(src/payment_gateway/service.py, utils/helpers.py, webhooks/razorpay_handler.py,
providers/razorpay_provider.py) and proofs about the claims of its
natural-language specification.

Modelling conventions:
* `Time` is an abstract instant encoded as `Int`; Python `timedelta(days = n)`
  becomes `+ n` on that scale, and `datetime.now()` becomes an explicit `now`
  argument threaded through every operation.
* The MySQL tables become lists of records inside `DBState`, kept in insertion
  order.  `SELECT ... WHERE p` / `fetchone` is `List.find?`, `UPDATE ... WHERE p`
  is a `List.map` guarded by `p`, `INSERT` is an append.  `ORDER BY k DESC
  LIMIT 1` is `pickLatest`, which keeps the later row on equal keys.
* SQL `col = %s` comparison against a NULL parameter never matches
  (`sqlOptEq`); MySQL `JSON_MERGE_PATCH` on the metadata column is a shallow
  key-wise patch on an association list (`mergePatch`), with JSON scalars
  rendered as strings.
* `uuid`-generated identifiers and the responses of external Razorpay API
  calls are inputs of the operations (`freshId`, `ProviderCreateOutcome`, ...).
* Python exceptions escaping a function are `Except.error` results carrying the
  exception message; the state component returned alongside holds whatever had
  been committed before the raise.
-/

namespace PaymentGateway

abbrev Time := Int

/-- `ORDER BY key DESC LIMIT 1` over a list in insertion order: `better x y`
means `x` strictly precedes `y` in the sort, so on ties the later row wins. -/
def pickLatest (better : α → α → Bool) : List α → Option α
  | [] => none
  | x :: xs =>
    match pickLatest better xs with
    | none => some x
    | some y => if better x y then some x else some y

/-- SQL equality of a nullable column against a nullable parameter:
`col = NULL` is never true. -/
def sqlOptEq (a b : Option String) : Bool :=
  match a, b with
  | some x, some y => x == y
  | _, _ => false

/-- Ordering key for `ORDER BY current_period_end DESC`: in MySQL, NULLs sort
last in descending order, so a non-NULL value strictly precedes NULL. -/
def optTimeGt : Option Time → Option Time → Bool
  | some x, some y => decide (y < x)
  | some _, none => true
  | _, _ => false

/-- JSON metadata column, abstracted to an association list from top-level key
to a string rendering of the JSON value. -/
abbrev Metadata := List (String × String)

/-- Set one top-level key, replacing its value when present (JSON object
keys are unique, so replacing the first occurrence is replacing the
occurrence). -/
def setKey : Metadata → String → String → Metadata
  | [], k, v => [(k, v)]
  | kv :: rest, k, v =>
    if kv.1 == k then (k, v) :: rest else kv :: setKey rest k v

/-- MySQL `JSON_MERGE_PATCH(IFNULL(metadata, empty), patch)`: shallow,
top-level-key patch (the patches written by this code never carry nulls, so
key deletion does not arise). -/
def mergePatch (m patch : Metadata) : Metadata :=
  patch.foldl (fun acc kv => setKey acc kv.1 kv.2) m

/-! ## utils/helpers.py -/

/-- `calculate_period_end` from utils/helpers.py: fixed-day period
arithmetic. -/
def calculate_period_end (start_date : Time) (interval : String) (count : Int) : Time :=
  if interval = "month" then start_date + 30 * count
  else if interval = "year" then start_date + 365 * count
  else start_date + 30

/-- MySQL `DATE_ADD(NOW(), INTERVAL n MONTH)` used in the free-plan update
branch of create_subscription.  Calendar-month arithmetic is abstracted to a
fixed 30-day month on the `Time` scale; no claim depends on its values. -/
def dateAddMonths (t : Time) (n : Int) : Time :=
  t + 30 * n

/-! ## Data model (db.py table schemas) -/

/-- Row of subscription_plans (columns the core reads). -/
structure Plan where
  id : String
  amount : Int
  interval : String
  interval_count : Int
  app_id : String
  payment_gateways : Option (List String)
  razorpay_plan_id : Option String
  paypal_plan_id : Option String
deriving DecidableEq, Repr

/-- Row of user_subscriptions (columns the core reads or writes;
created_at/updated_at bookkeeping timestamps are not modelled). -/
structure Subscription where
  id : String
  user_id : String
  plan_id : String
  razorpay_subscription_id : Option String
  paypal_subscription_id : Option String
  status : String
  current_period_start : Option Time
  current_period_end : Option Time
  app_id : String
  metadata : Metadata
deriving DecidableEq, Repr

/-- Row of subscription_invoices. -/
structure Invoice where
  id : String
  subscription_id : String
  user_id : String
  razorpay_invoice_id : Option String
  amount : Int
  currency : String
  status : String
  payment_id : Option String
  invoice_date : Time
  app_id : String
deriving DecidableEq, Repr

/-- Row of subscription_events_log (the raw JSON data column is audit-only and
never read back, so it is not modelled). -/
structure EventLogEntry where
  event_type : String
  razorpay_entity_id : Option String
  paypal_entity_id : Option String
  user_id : Option String
  processed : Bool
deriving DecidableEq, Repr

/-- Row of resource_usage (the AUTO_INCREMENT id is not modelled; rows are
identified by position). -/
structure ResourceUsage where
  user_id : String
  subscription_id : String
  app_id : String
  billing_period_start : Time
  billing_period_end : Time
  document_pages_count : Int
  perplexity_requests_count : Int
deriving DecidableEq, Repr

/-- Row of the users table (columns read by create_subscription). -/
structure UserRow where
  id : String
  google_uid : Option String
  email : Option String
  display_name : Option String
deriving DecidableEq, Repr

/-- The persistent store. -/
structure DBState where
  plans : List Plan
  users : List UserRow
  subscriptions : List Subscription
  invoices : List Invoice
  events : List EventLogEntry
  usage : List ResourceUsage
deriving DecidableEq, Repr

/-- db.py log_event: append one audit row, routing the entity id to the
provider-specific column. -/
def DBState.log_event (st : DBState) (event_type : String)
    (entity_id user_id : Option String) (provider : String) (processed : Bool) :
    DBState :=
  let rzp := if provider == "razorpay" then entity_id else none
  let pp := if provider == "razorpay" then none else entity_id
  { st with events := st.events ++ [⟨event_type, rzp, pp, user_id, processed⟩] }

/-- service.py _create_resource_usage_record: insert a usage row with both
counters at zero. -/
def create_resource_usage_record (st : DBState)
    (user_id subscription_id app_id : String) (period_start period_end : Time) :
    DBState :=
  { st with usage := st.usage ++
      [⟨user_id, subscription_id, app_id, period_start, period_end, 0, 0⟩] }

/-- WHERE clause `user_id = u AND app_id = a AND status = 'active'`. -/
def activeFor (u a : String) (s : Subscription) : Bool :=
  s.user_id == u && s.app_id == a && s.status == "active"

/-! ## Webhook payload shape

Only the fields the handlers actually dereference are modelled.  Absent JSON
keys are `none`; a `start_at` value that is not parseable as an integer is
conflated with an absent one (the code falls back to `now` in both cases). -/

/-- The dict at payload.subscription.entity. -/
structure SubscriptionEntity where
  id : Option String
  start_at : Option Time
deriving DecidableEq, Repr

/-- The dict at payload.subscription (keys read directly on the wrapper by
handle_webhook, plus the nested entity). -/
structure SubscriptionWrapper where
  id : Option String
  notes_user_id : Option String
  entity : Option SubscriptionEntity
deriving DecidableEq, Repr

/-- The dict at payload.payment.entity. -/
structure PaymentEntity where
  id : Option String
  invoice_id : Option String
  amount : Option Int
  currency : Option String
  status : Option String
deriving DecidableEq, Repr

/-- The dict at payload.payment. -/
structure PaymentWrapper where
  id : Option String
  entity : Option PaymentEntity
deriving DecidableEq, Repr

/-- A parsed webhook body.  A missing payload key behaves exactly like one
whose payment and subscription sub-dicts are absent, so the two are
conflated. -/
structure WebhookPayload where
  event : Option String
  subscription : Option SubscriptionWrapper
  payment : Option PaymentWrapper
deriving DecidableEq, Repr

/-- `payload.get(payload_key).get(subscription_key).get(entity_key).get(id_key)`
as chained in the authenticated/activated/completed/cancelled handlers. -/
def subEntityId (p : WebhookPayload) : Option String :=
  (p.subscription.bind (fun w => w.entity)).bind (fun e => e.id)

/-- Entity resolution at the top of the charged handler: take the entity when
the subscription dict nests one, otherwise treat the dict itself as the
entity (in which case only its direct id key is available). -/
def chargedSubEntity (p : WebhookPayload) : SubscriptionEntity :=
  match p.subscription with
  | none => ⟨none, none⟩
  | some w =>
    match w.entity with
    | some e => e
    | none => ⟨w.id, none⟩

/-- String rendering of a subscription entity used when the handlers merge the
raw payload into the metadata column (JSON serialization abstracted). -/
def subscriptionEntityPatch (e : SubscriptionEntity) : Metadata :=
  (match e.id with
   | some i => [("id", i)]
   | none => []) ++
  (match e.start_at with
   | some t => [("start_at", toString t)]
   | none => [])

/-- Opaque string rendering of one subscription entity (used for the nested
patch written by the charged handler). -/
def subscriptionEntityString (e : SubscriptionEntity) : String :=
  (match e.id with
   | some i => i
   | none => "") ++ ";" ++
  (match e.start_at with
   | some t => toString t
   | none => "")

/-! ## Per-event webhook handlers (service.py) -/

/-- The status/message result dict returned by every per-event handler. -/
structure HandlerResult where
  status : String
  message : String
deriving DecidableEq, Repr

/-- service.py _handle_razorpay_subscription_authenticated. -/
def handle_razorpay_subscription_authenticated (st : DBState)
    (payload : WebhookPayload) : DBState × HandlerResult :=
  match subEntityId payload with
  | none => (st, ⟨"error", "Missing subscription ID"⟩)
  | some rid =>
    match st.subscriptions.find?
        (fun s => s.razorpay_subscription_id == some rid) with
    | none => (st, ⟨"error", "Subscription not found"⟩)
    | some _ =>
      let entity := (payload.subscription.bind (fun w => w.entity)).getD ⟨none, none⟩
      let st1 := { st with subscriptions := st.subscriptions.map (fun s =>
        if s.razorpay_subscription_id == some rid && !(s.status == "active") then
          { s with status := "authenticated",
                   metadata := mergePatch s.metadata (subscriptionEntityPatch entity) }
        else s) }
      (st1, ⟨"success", "Subscription authenticated"⟩)

/-- service.py _handle_razorpay_subscription_activated. -/
def handle_razorpay_subscription_activated (st : DBState) (now : Time)
    (payload : WebhookPayload) : DBState × HandlerResult :=
  match subEntityId payload with
  | none => (st, ⟨"error", "Missing subscription ID"⟩)
  | some rid =>
    match st.subscriptions.find?
        (fun s => s.razorpay_subscription_id == some rid) with
    | none => (st, ⟨"error", "Subscription not found"⟩)
    | some sub =>
      let entity := (payload.subscription.bind (fun w => w.entity)).getD ⟨none, none⟩
      let start_date := match entity.start_at with
        | some t => t
        | none => now
      let period_end := match st.plans.find? (fun q => q.id == sub.plan_id) with
        | some plan => calculate_period_end start_date plan.interval plan.interval_count
        | none => start_date + 30
      let st1 := { st with subscriptions := st.subscriptions.map (fun s =>
        if s.razorpay_subscription_id == some rid then
          { s with status := "active",
                   current_period_start := some start_date,
                   current_period_end := some period_end,
                   metadata := mergePatch s.metadata (subscriptionEntityPatch entity) }
        else s) }
      let st2 := create_resource_usage_record st1 sub.user_id sub.id sub.app_id
        start_date period_end
      (st2, ⟨"success", "Subscription activated"⟩)

/-- service.py _handle_razorpay_subscription_charged: renews the period from
now, resets usage, and records an invoice when payment data carries an invoice
id. -/
def handle_razorpay_subscription_charged (st : DBState) (now : Time)
    (freshId : String) (payload : WebhookPayload) : DBState × HandlerResult :=
  let subEntity := chargedSubEntity payload
  let paymentEntity := payload.payment.bind (fun w => w.entity)
  let rid := subEntity.id
  let razorpay_invoice_id := paymentEntity.bind (fun e => e.invoice_id)
  let razorpay_payment_id := paymentEntity.bind (fun e => e.id)
  match st.subscriptions.find?
      (fun s => sqlOptEq s.razorpay_subscription_id rid) with
  | none => (st, ⟨"error", "Subscription not found"⟩)
  | some sub =>
    let new_start := now
    let plan? := st.plans.find? (fun q => q.id == sub.plan_id)
    let new_end := calculate_period_end new_start
      (match plan? with
       | some plan => plan.interval
       | none => "month")
      (match plan? with
       | some plan => plan.interval_count
       | none => 1)
    let st1 := { st with subscriptions := st.subscriptions.map (fun s =>
      if sqlOptEq s.razorpay_subscription_id rid then
        { s with status := "active",
                 current_period_start := some new_start,
                 current_period_end := some new_end,
                 metadata := mergePatch s.metadata
                   [("subscription", subscriptionEntityString subEntity)] }
      else s) }
    let st2 := create_resource_usage_record st1 sub.user_id sub.id sub.app_id
      new_start new_end
    let st3 := match razorpay_invoice_id with
      | none => st2
      | some inv =>
        let pe := paymentEntity.getD ⟨none, none, none, none, none⟩
        let status0 := pe.status.getD "pending"
        let status1 := if status0 == "captured" then "Paid" else status0
        { st2 with invoices := st2.invoices ++
            [⟨freshId, sub.id, sub.user_id, some inv, pe.amount.getD 0,
              pe.currency.getD "INR", status1, razorpay_payment_id, now,
              sub.app_id⟩] }
    (st3, ⟨"success", "Subscription renewed and usage reset"⟩)

/-- service.py _handle_razorpay_subscription_completed. -/
def handle_razorpay_subscription_completed (st : DBState)
    (payload : WebhookPayload) : DBState × HandlerResult :=
  match subEntityId payload with
  | none => (st, ⟨"error", "Missing subscription ID"⟩)
  | some rid =>
    match st.subscriptions.find?
        (fun s => s.razorpay_subscription_id == some rid) with
    | none => (st, ⟨"error", "Subscription not found"⟩)
    | some _ =>
      let entity := (payload.subscription.bind (fun w => w.entity)).getD ⟨none, none⟩
      let st1 := { st with subscriptions := st.subscriptions.map (fun s =>
        if s.razorpay_subscription_id == some rid then
          { s with status := "completed",
                   metadata := mergePatch s.metadata (subscriptionEntityPatch entity) }
        else s) }
      (st1, ⟨"success", "Subscription marked as completed"⟩)

/-- service.py _handle_razorpay_subscription_cancelled. -/
def handle_razorpay_subscription_cancelled (st : DBState)
    (payload : WebhookPayload) : DBState × HandlerResult :=
  match subEntityId payload with
  | none => (st, ⟨"error", "Missing subscription ID"⟩)
  | some rid =>
    match st.subscriptions.find?
        (fun s => s.razorpay_subscription_id == some rid) with
    | none => (st, ⟨"error", "Subscription not found"⟩)
    | some _ =>
      let entity := (payload.subscription.bind (fun w => w.entity)).getD ⟨none, none⟩
      let st1 := { st with subscriptions := st.subscriptions.map (fun s =>
        if s.razorpay_subscription_id == some rid then
          { s with status := "cancelled",
                   metadata := mergePatch s.metadata (subscriptionEntityPatch entity) }
        else s) }
      (st1, ⟨"success", "Subscription marked as cancelled"⟩)

/-! ## handle_webhook (service.py) -/

/-- Entity-id / user-id extraction at the top of handle_webhook: keys are read
directly on the payment/subscription wrapper dicts, not on the nested
entity. -/
def extractWebhookIds (provider : String) (p : WebhookPayload) :
    Option String × Option String :=
  if provider == "razorpay" then
    match p.payment with
    | some pw => (pw.id, none)
    | none =>
      match p.subscription with
      | some sw => (sw.id, sw.notes_user_id)
      | none => (none, none)
  else (none, none)

/-- Handler routing switch of handle_webhook over provider and event type. -/
def dispatchWebhookEvent (st : DBState) (now : Time) (freshId : String)
    (payload : WebhookPayload) (provider event_type : String) :
    DBState × HandlerResult :=
  if provider == "razorpay" then
    if event_type == "subscription.authenticated" then
      handle_razorpay_subscription_authenticated st payload
    else if event_type == "subscription.activated" then
      handle_razorpay_subscription_activated st now payload
    else if event_type == "subscription.charged" then
      handle_razorpay_subscription_charged st now freshId payload
    else if event_type == "subscription.completed" then
      handle_razorpay_subscription_completed st payload
    else if event_type == "subscription.cancelled" then
      handle_razorpay_subscription_cancelled st payload
    else
      (st, ⟨"ignored", "Unhandled event type: " ++ event_type⟩)
  else if provider == "paypal" then
    (st, ⟨"ignored", "PayPal webhook handling not implemented"⟩)
  else
    (st, ⟨"error", "Unknown provider: " ++ provider⟩)

/-- The dict returned by handle_webhook. -/
structure HandleWebhookRet where
  status : String
  message : String
  result : Option HandlerResult
deriving DecidableEq, Repr

/-- service.py handle_webhook: audit-log on receipt, dispatch, audit-log the
outcome under the suffixed event type. -/
def handle_webhook (st : DBState) (now : Time) (freshId : String)
    (payload : WebhookPayload) (provider : String) :
    DBState × HandleWebhookRet :=
  match payload.event with
  | none => (st, ⟨"error", "Invalid webhook payload", none⟩)
  | some event_type =>
    let ids := extractWebhookIds provider payload
    let st1 := st.log_event event_type ids.1 ids.2 provider false
    let dispatched := dispatchWebhookEvent st1 now freshId payload provider event_type
    let st2 := (dispatched.1).log_event (event_type ++ "_processed") ids.1 ids.2
      provider true
    (st2, ⟨"success", "Processed " ++ event_type ++ " event", some dispatched.2⟩)

/-! ## webhooks/razorpay_handler.py (HTTP layer) -/

/-- verify_razorpay_signature: fails closed when the webhook secret is not
configured; the HMAC-SHA256 comparison itself is abstracted to its boolean
outcome, supplied by the environment. -/
def verify_razorpay_signature (secret_configured hmac_matches : Bool) : Bool :=
  if !secret_configured then false else hmac_matches

/-- Inbound HTTP request as seen by handle_razorpay_webhook: the optional
X-Razorpay-Signature header and the parsed JSON body (none when the body does
not parse, which in the source surfaces as a caught exception). -/
structure RequestModel where
  signature_header : Option String
  json : Option WebhookPayload
deriving DecidableEq, Repr

/-- HTTP-level outcome of handle_razorpay_webhook. -/
inductive WebhookHttpResponse where
  /-- The 400 response with body error = Invalid signature. -/
  | invalidSignature
  /-- The 500 response produced by the outer exception handler. -/
  | serverError (msg : String)
  /-- The 200 response echoing the event type and the handle_webhook result. -/
  | processed (event : Option String) (result : HandleWebhookRet)
deriving DecidableEq, Repr

/-- handle_razorpay_webhook.  The first component records whether
verify_razorpay_signature was invoked at all (it is skipped entirely when the
header is absent). -/
def handle_razorpay_webhook (secret_configured hmac_matches : Bool)
    (req : RequestModel) (st : DBState) (now : Time) (freshId : String) :
    Bool × WebhookHttpResponse × DBState :=
  match req.signature_header with
  | some _ =>
    if !verify_razorpay_signature secret_configured hmac_matches then
      (true, .invalidSignature, st)
    else
      match req.json with
      | none => (true, .serverError "Invalid JSON body", st)
      | some wd =>
        let r := handle_webhook st now freshId wd "razorpay"
        (true, .processed wd.event r.2, r.1)
  | none =>
    match req.json with
    | none => (false, .serverError "Invalid JSON body", st)
    | some wd =>
      let r := handle_webhook st now freshId wd "razorpay"
      (false, .processed wd.event r.2, r.1)

/-! ## providers/razorpay_provider.py -/

/-- Result dict of a RazorpayProvider operation, unified over the success and
failure shapes (absent keys are none/false; the raw data echo is not
modelled). -/
structure ProviderResult where
  error : Bool := false
  message : Option String := none
  id : Option String := none
  status : Option String := none
  short_url : Option String := none
  success : Bool := false
deriving DecidableEq, Repr

/-- The tagged failure returned by every operation when the client is not
initialized. -/
def uninitializedResult : ProviderResult :=
  { error := true, message := some "Razorpay client not initialized" }

/-- One outbound call to the Razorpay API (recorded so that theorems can state
that no external call was attempted). -/
structure RazorpayApiCall where
  op : String
  target : String
deriving DecidableEq, Repr

/-- Environment-supplied outcome of client.subscription.create. -/
inductive ApiCreateOutcome where
  | raised (msg : String)
  | ok (id status short_url : Option String)
deriving DecidableEq, Repr

/-- Environment-supplied outcome of client.subscription.cancel or fetch. -/
inductive ApiOpOutcome where
  | raised (msg : String)
  | ok (status : Option String)
deriving DecidableEq, Repr

/-- RazorpayProvider instance state after construction. -/
structure RazorpayProvider where
  initialized : Bool
  client : Bool
deriving DecidableEq, Repr

/-- RazorpayProvider.__init__ / init_client, driven by whether each credential
environment variable is non-empty.  (The path where the client constructor
itself raises also leaves the provider uninitialized and is subsumed by the
credentials-absent case.) -/
def RazorpayProvider.init_client (has_key_id has_key_secret : Bool) :
    RazorpayProvider :=
  if has_key_id && has_key_secret then ⟨true, true⟩ else ⟨false, false⟩

/-- RazorpayProvider.create_subscription. -/
def RazorpayProvider.create_subscription (p : RazorpayProvider)
    (plan_id : String) (customer_user_id : Option String) (app_id : String)
    (api : ApiCreateOutcome) : List RazorpayApiCall × ProviderResult :=
  if !(p.initialized && p.client) then
    ([], uninitializedResult)
  else
    match api with
    | .raised m =>
      ([⟨"subscription.create", plan_id⟩], { error := true, message := some m })
    | .ok i s u =>
      ([⟨"subscription.create", plan_id⟩], { id := i, status := s, short_url := u })

/-- RazorpayProvider.cancel_subscription. -/
def RazorpayProvider.cancel_subscription (p : RazorpayProvider)
    (subscription_id : String) (cancel_at_cycle_end : Bool)
    (api : ApiOpOutcome) : List RazorpayApiCall × ProviderResult :=
  if !(p.initialized && p.client) then
    ([], uninitializedResult)
  else
    match api with
    | .raised m =>
      ([⟨"subscription.cancel", subscription_id⟩],
       { error := true, message := some m })
    | .ok s =>
      ([⟨"subscription.cancel", subscription_id⟩], { success := true, status := s })

/-- RazorpayProvider.fetch_subscription. -/
def RazorpayProvider.fetch_subscription (p : RazorpayProvider)
    (subscription_id : String) (api : ApiOpOutcome) :
    List RazorpayApiCall × ProviderResult :=
  if !(p.initialized && p.client) then
    ([], uninitializedResult)
  else
    match api with
    | .raised m =>
      ([⟨"subscription.fetch", subscription_id⟩],
       { error := true, message := some m })
    | .ok s =>
      ([⟨"subscription.fetch", subscription_id⟩], { success := true, status := s })

/-! ## PaymentService.create_subscription (service.py) -/

/-- Outcome of the gateway-provider create call as seen by the service layer
(the dict returned by RazorpayProvider/PayPalProvider.create_subscription),
supplied by the environment. -/
inductive ProviderCreateOutcome where
  | err (message : Option String)
  | ok (id short_url : Option String)
deriving DecidableEq, Repr

/-- Metadata stored for a freshly created paid subscription: the serialized
gateway response (JSON rendering abstracted to present keys). -/
def createResponseMetadata (id short_url : Option String) : Metadata :=
  (match id with
   | some i => [("id", i)]
   | none => []) ++
  (match short_url with
   | some u => [("short_url", u)]
   | none => [])

/-- The dict returned by create_subscription (gateway fields are none on the
free-plan path). -/
structure CreateSubscriptionResult where
  id : String
  user_id : String
  plan_id : String
  status : String
  app_id : String
  razorpay_subscription_id : Option String := none
  paypal_subscription_id : Option String := none
  short_url : Option String := none
  gateway : Option String := none
deriving DecidableEq, Repr

/-- service.py create_subscription.  Returns the committed store alongside the
outcome; `Except.error` is a Python exception escaping the function.  On the
free-plan path with an existing active subscription the source never assigns
the local variables current_period_start/current_period_end, yet passes them
to _create_resource_usage_record after committing, so that path raises
UnboundLocalError (re-raised by the outer except block). -/
def create_subscription (st : DBState) (now : Time) (freshId : String)
    (providerResponse : ProviderCreateOutcome)
    (user_id plan_id app_id : String) :
    DBState × Except String CreateSubscriptionResult :=
  match st.plans.find? (fun q => q.id == plan_id) with
  | none => (st, .error ("Plan with ID " ++ plan_id ++ " not found"))
  | some plan =>
    let existing := st.subscriptions.find? (activeFor user_id app_id)
    if plan.amount == 0 then
      match existing with
      | some ex =>
        let st1 :=
          if ex.plan_id == plan_id then st
          else { st with subscriptions := st.subscriptions.map (fun s =>
            if s.id == ex.id then
              { s with plan_id := plan_id,
                       current_period_start := some now,
                       current_period_end :=
                         some (dateAddMonths now plan.interval_count) }
            else s) }
        (st1, .error
          "UnboundLocalError: local variable current_period_start referenced before assignment")
      | none =>
        let current_period_start := now
        let current_period_end :=
          calculate_period_end now plan.interval plan.interval_count
        let st1 := { st with subscriptions := st.subscriptions ++
          [⟨freshId, user_id, plan_id, none, none, "active",
            some current_period_start, some current_period_end, app_id, []⟩] }
        let st2 := create_resource_usage_record st1 user_id freshId app_id
          current_period_start current_period_end
        (st2, .ok ⟨freshId, user_id, plan_id, "active", app_id,
                   none, none, none, none⟩)
    else
      match st.users.find?
          (fun u => u.id == user_id || u.google_uid == some user_id) with
      | none => (st, .error ("User with ID " ++ user_id ++ " not found"))
      | some _ =>
        let gateways := plan.payment_gateways.getD ["razorpay"]
        let gateway := gateways.head?.getD "razorpay"
        if gateway == "razorpay" then
          match providerResponse with
          | .err m =>
            (st, .error (m.getD "Failed to create Razorpay subscription"))
          | .ok gid url =>
            let st1 := { st with subscriptions := st.subscriptions ++
              [(⟨freshId, user_id, plan_id, gid, none, "created",
                none, none, app_id, createResponseMetadata gid url⟩ : Subscription)] }
            let st2 := st1.log_event "subscription_created" gid (some user_id)
              "razorpay" true
            (st2, .ok { id := freshId, user_id := user_id, plan_id := plan_id,
                        status := "created", app_id := app_id,
                        razorpay_subscription_id := gid, short_url := url,
                        gateway := some "razorpay" })
        else if gateway == "paypal" then
          match plan.paypal_plan_id with
          | none => (st, .error "PayPal plan ID not found for this plan")
          | some _ =>
            match providerResponse with
            | .err m =>
              (st, .error (m.getD "Failed to create PayPal subscription"))
            | .ok gid url =>
              let st1 := { st with subscriptions := st.subscriptions ++
                [(⟨freshId, user_id, plan_id, none, gid, "created",
                  none, none, app_id, createResponseMetadata gid url⟩ : Subscription)] }
              let st2 := st1.log_event "subscription_created" gid (some user_id)
                "paypal" true
              (st2, .ok { id := freshId, user_id := user_id, plan_id := plan_id,
                          status := "created", app_id := app_id,
                          paypal_subscription_id := gid, short_url := url,
                          gateway := some "paypal" })
        else
          (st, .error ("Unsupported payment gateway: " ++ gateway))

/-! ## PaymentService.cancel_subscription (service.py) -/

/-- Outcome of the best-effort RazorpayProvider.cancel_subscription call made
inside cancel_subscription, supplied by the environment. -/
inductive ProviderCancelOutcome where
  | raised (msg : String)
  | errorResult (message : Option String)
  | ok (status : Option String)
deriving DecidableEq, Repr

/-- True when the provider call raised or returned a tagged error. -/
def ProviderCancelOutcome.isFailure : ProviderCancelOutcome → Bool
  | .ok _ => false
  | _ => true

/-- The dict returned by cancel_subscription on success. -/
structure CancelSubscriptionResult where
  id : String
  status : String
  cancellation_scheduled : Bool
  end_date : Option Time
  message : String
deriving DecidableEq, Repr

/-- service.py cancel_subscription: the provider outcome is logged but never
branches the state update or the returned value; a missing or foreign
subscription raises ValueError. -/
def cancel_subscription (st : DBState) (now : Time)
    (user_id subscription_id : String)
    (providerOutcome : ProviderCancelOutcome) :
    DBState × Except String CancelSubscriptionResult :=
  match st.subscriptions.find?
      (fun s => s.id == subscription_id && s.user_id == user_id) with
  | none => (st, .error "Subscription not found or not owned by user")
  | some sub =>
    let _ := providerOutcome
    let st1 := { st with subscriptions := st.subscriptions.map (fun s =>
      if s.id == subscription_id then
        { s with metadata := (mergePatch s.metadata
            [("cancellation_scheduled", "true"),
             ("cancelled_at", toString now)]) }
      else s) }
    (st1, .ok ⟨subscription_id, "active", true, sub.current_period_end,
      "Subscription will remain active until the end of the current billing period"⟩)

/-! ## PaymentService.get_resource_usage (service.py) -/

/-- The usage dict returned by get_resource_usage. -/
structure UsageCounters where
  document_pages : Int
  perplexity_requests : Int
deriving DecidableEq, Repr

/-- service.py get_resource_usage: pick the active subscription with the
latest period end, then the usage row of the billing window containing now
with the latest period start; all counters default to zero. -/
def get_resource_usage (st : DBState) (now : Time) (user_id app_id : String) :
    UsageCounters :=
  match pickLatest
      (fun s t => optTimeGt s.current_period_end t.current_period_end)
      (st.subscriptions.filter (activeFor user_id app_id)) with
  | none => ⟨0, 0⟩
  | some sub =>
    match pickLatest
        (fun r s => decide (s.billing_period_start < r.billing_period_start))
        (st.usage.filter (fun r =>
          r.user_id == user_id && r.subscription_id == sub.id &&
          r.app_id == app_id &&
          decide (r.billing_period_start ≤ now) &&
          decide (now ≤ r.billing_period_end))) with
    | none => ⟨0, 0⟩
    | some r => ⟨r.document_pages_count, r.perplexity_requests_count⟩

/-! ## Operation sequences for the at-most-one-active invariant -/

/-- One create_subscription call together with its environment inputs. -/
structure CreateOp where
  now : Time
  freshId : String
  resp : ProviderCreateOutcome
  user_id : String
  plan_id : String
  app_id : String
deriving DecidableEq, Repr

/-- Run a sequence of create_subscription calls, keeping the committed store
of each (whether or not the call raised). -/
def runCreateOps (st : DBState) (ops : List CreateOp) : DBState :=
  ops.foldl
    (fun s o =>
      (create_subscription s o.now o.freshId o.resp o.user_id o.plan_id o.app_id).1)
    st

/-- One operation of the kind quantified over by the invariant claim. -/
inductive LifecycleOp where
  | create (op : CreateOp)
  | activated (now : Time) (payload : WebhookPayload)
  | charged (now : Time) (freshId : String) (payload : WebhookPayload)
deriving DecidableEq, Repr

/-- Apply one lifecycle operation to the store. -/
def lifecycleStep (st : DBState) : LifecycleOp → DBState
  | .create o =>
    (create_subscription st o.now o.freshId o.resp o.user_id o.plan_id o.app_id).1
  | .activated now payload =>
    (handle_razorpay_subscription_activated st now payload).1
  | .charged now freshId payload =>
    (handle_razorpay_subscription_charged st now freshId payload).1

/-- Run a sequence of lifecycle operations. -/
def runLifecycleOps (st : DBState) (ops : List LifecycleOp) : DBState :=
  ops.foldl lifecycleStep st

/-- The invariant: for every (user, app) pair, at most one subscription row
has status active. -/
def AtMostOneActive (st : DBState) : Prop :=
  ∀ u a, (st.subscriptions.filter (activeFor u a)).length ≤ 1

/-! ## Concrete fixtures -/

/-- A free plan for app a. -/
def freePlanA : Plan :=
  { id := "plan_free_a", amount := 0, interval := "month", interval_count := 1,
    app_id := "a", payment_gateways := some ["razorpay"],
    razorpay_plan_id := none, paypal_plan_id := none }

/-- A paid razorpay plan for app a. -/
def paidPlanA : Plan :=
  { id := "plan_paid_a", amount := 100, interval := "month", interval_count := 1,
    app_id := "a", payment_gateways := some ["razorpay"],
    razorpay_plan_id := some "rzp_plan_a", paypal_plan_id := none }

/-- Initial store: both plans, one user, no subscriptions. -/
def fixtureSt0 : DBState :=
  { plans := [freePlanA, paidPlanA],
    users := [⟨"u1", none, some "u1@example.com", some "User One"⟩],
    subscriptions := [], invoices := [], events := [], usage := [] }

/-- A subscription.activated payload for razorpay subscription rzp_1. -/
def activatedPayloadRzp1 : WebhookPayload :=
  { event := some "subscription.activated",
    subscription := some ⟨none, none, some ⟨some "rzp_1", none⟩⟩,
    payment := none }

/-- The operation sequence refuting the invariant claim: create a free
subscription, create a paid one (provider returns rzp_1) while the free one
is still active, then receive its activation webhook. -/
def violatingOps : List LifecycleOp :=
  [ .create ⟨0, "sub_1", .err none, "u1", "plan_free_a", "a"⟩,
    .create ⟨1, "sub_2", .ok (some "rzp_1") none, "u1", "plan_paid_a", "a"⟩,
    .activated 2 activatedPayloadRzp1 ]

/-! ## Shared list lemmas -/

/-- Mapping a row transformer that does not change a predicate leaves the
filter length unchanged. -/
theorem length_filter_map_of_pred_eq (p : α → Bool) (f : α → α) (l : List α)
    (h : ∀ x, p (f x) = p x) :
    ((l.map f).filter p).length = (l.filter p).length := by
  induction l with
  | nil => rfl
  | cons x xs ih =>
    simp only [List.map_cons, List.filter_cons, h x]
    cases p x <;> simp [ih]

/-- A failed find? means the filter is empty. -/
theorem filter_eq_nil_of_find?_eq_none {p : α → Bool} {l : List α}
    (h : l.find? p = none) : l.filter p = [] := by
  rw [List.filter_eq_nil_iff]
  intro a ha
  exact fun hpa => (List.find?_eq_none.mp h a ha) hpa

/-- Appending one row that fails the predicate leaves the filter unchanged. -/
theorem filter_append_singleton_neg {p : α → Bool} {l : List α} {a : α}
    (h : p a = false) : (l ++ [a]).filter p = l.filter p := by
  simp [List.filter_append, List.filter_cons, h]

/-- Appending one row that satisfies the predicate appends it to the
filter. -/
theorem filter_append_singleton_pos {p : α → Bool} {l : List α} {a : α}
    (h : p a = true) : (l ++ [a]).filter p = l.filter p ++ [a] := by
  simp [List.filter_append, List.filter_cons, h]

/-- A filter returning exactly one row pins down find?. -/
theorem find?_eq_of_filter_eq_singleton {p : α → Bool} :
    ∀ {l : List α} {a : α}, l.filter p = [a] → l.find? p = some a := by
  intro l
  induction l with
  | nil => intro a h; simp [List.filter] at h
  | cons x xs ih =>
    intro a h
    by_cases hx : p x
    · rw [List.filter_cons_of_pos hx] at h
      injection h with h1 h2
      subst h1
      simp [List.find?, hx]
    · rw [List.filter_cons_of_neg (by simpa using hx)] at h
      simpa [List.find?, Bool.eq_false_iff.mpr hx] using ih h

/-- pickLatest returns the element appended last when nothing earlier beats
it. -/
theorem pickLatest_append_singleton {better : α → α → Bool} :
    ∀ {l : List α} {a : α}, (∀ y ∈ l, better y a = false) →
      pickLatest better (l ++ [a]) = some a := by
  intro l
  induction l with
  | nil => intro a _; rfl
  | cons x xs ih =>
    intro a h
    have hx : better x a = false := h x (by simp)
    have hrest := ih (fun y hy => h y (by simp [hy]))
    simp only [List.cons_append, pickLatest, List.append_eq]
    rw [hrest]
    simp [hx]

/-! ## Claim C1 -/

/-- Claim C1 (counterexample): from a state satisfying the at-most-one-active
invariant, the sequence create-free, create-paid, subscription.activated
leaves two rows with status active for the pair (u1, a), so the invariant is
not preserved by create/activate/charge sequences. -/
theorem at_most_one_active_violated :
    AtMostOneActive fixtureSt0 ∧
      ¬ AtMostOneActive (runLifecycleOps fixtureSt0 violatingOps) := by
  constructor
  · intro u a
    simp [fixtureSt0]
  · intro h
    have h2 := h "u1" "a"
    revert h2
    decide

/-- Single create_subscription call preserves the at-most-one-active
invariant: the free path inserts an active row only when the pair had none,
and the paid path inserts a row with status created. -/
theorem create_subscription_step_preserves (st : DBState) (now : Time)
    (freshId : String) (resp : ProviderCreateOutcome) (u p a : String)
    (h : AtMostOneActive st) :
    AtMostOneActive (create_subscription st now freshId resp u p a).1 := by
  intro u' a'
  simp only [create_subscription]
  split
  · exact h u' a'
  · rename_i plan hplan
    split
    · -- free plan
      split
      · -- existing active subscription for the pair
        rename_i ex hex
        split
        · exact h u' a'
        · simp only
          rw [length_filter_map_of_pred_eq]
          · exact h u' a'
          · intro s
            by_cases hid : (s.id == ex.id) = true <;> simp [activeFor, hid]
      · -- no existing active subscription: fresh active row
        rename_i hex
        simp only [create_resource_usage_record]
        by_cases hu : u = u'
        · by_cases ha : a = a'
          · subst hu; subst ha
            rw [filter_append_singleton_pos (by simp [activeFor])]
            rw [filter_eq_nil_of_find?_eq_none hex]
            simp
          · rw [filter_append_singleton_neg (by simp [activeFor, ha])]
            exact h u' a'
        · rw [filter_append_singleton_neg (by simp [activeFor, hu])]
          exact h u' a'
    · -- paid plan
      split
      · exact h u' a'
      · split
        · -- razorpay gateway
          split
          · exact h u' a'
          · rename_i gid url
            simp only [DBState.log_event]
            rw [filter_append_singleton_neg (by simp [activeFor])]
            exact h u' a'
        · split
          · -- paypal gateway
            split
            · exact h u' a'
            · split
              · exact h u' a'
              · rename_i gid url
                simp only [DBState.log_event]
                rw [filter_append_singleton_neg (by simp [activeFor])]
                exact h u' a'
          · exact h u' a'

/-- Claim C1 (amended): after any sequence of create_subscription calls from
a state satisfying the at-most-one-active invariant, the invariant still
holds; the webhook activation and charge handlers, by contrast, activate the
matched row without deactivating any other active row of the same pair (see
the counterexample). -/
theorem create_sequences_preserve_at_most_one_active (st : DBState)
    (ops : List CreateOp) (h : AtMostOneActive st) :
    AtMostOneActive (runCreateOps st ops) := by
  induction ops generalizing st with
  | nil => exact h
  | cons o os ih =>
    exact ih _ (create_subscription_step_preserves st o.now o.freshId o.resp
      o.user_id o.plan_id o.app_id h)

/-- Witness for the amended C1 theorem at a concrete state and operation
sequence. -/
theorem create_sequences_preserve_at_most_one_active_witness :
    AtMostOneActive fixtureSt0 ∧
      AtMostOneActive (runCreateOps fixtureSt0
        [⟨0, "sub_1", .err none, "u1", "plan_free_a", "a"⟩,
         ⟨1, "sub_2", .ok (some "rzp_1") none, "u1", "plan_paid_a", "a"⟩]) := by
  have h0 : AtMostOneActive fixtureSt0 := by
    intro u a
    simp [fixtureSt0]
  exact ⟨h0, create_sequences_preserve_at_most_one_active fixtureSt0 _ h0⟩

/-! ## Claim C2 -/

/-- Claim C2 (code bug): calling create_subscription twice with the same
(user, free plan, app) inserts no second row, but the second call raises
UnboundLocalError instead of returning the first subscription id, because the
source only assigns current_period_start/current_period_end on the
no-existing-subscription branch yet passes them to
_create_resource_usage_record on every free-plan path. -/
theorem free_plan_second_create_raises :
    (create_subscription fixtureSt0 0 "sub_1" (.err none)
        "u1" "plan_free_a" "a").2
      = Except.ok ⟨"sub_1", "u1", "plan_free_a", "active", "a",
                   none, none, none, none⟩
    ∧ (create_subscription
          (create_subscription fixtureSt0 0 "sub_1" (.err none)
            "u1" "plan_free_a" "a").1
          1 "sub_2" (.err none) "u1" "plan_free_a" "a").2
        = Except.error
            "UnboundLocalError: local variable current_period_start referenced before assignment"
    ∧ (create_subscription
          (create_subscription fixtureSt0 0 "sub_1" (.err none)
            "u1" "plan_free_a" "a").1
          1 "sub_2" (.err none) "u1" "plan_free_a" "a").1.subscriptions.length
        = 1 :=
  ⟨rfl, rfl, rfl⟩

/-! ## Claim C9 -/

/-- Claim C9: calculate_period_end adds 30 days per month, 365 per year, and
falls back to a single 30-day month on any other interval; it is a total
function. -/
theorem calculate_period_end_spec (start_date : Time) (interval : String)
    (count : Int) (hpos : 0 < count) :
    (interval = "month" →
      calculate_period_end start_date interval count = start_date + 30 * count)
    ∧ (interval = "year" →
      calculate_period_end start_date interval count = start_date + 365 * count)
    ∧ (interval ≠ "month" → interval ≠ "year" →
      calculate_period_end start_date interval count = start_date + 30) := by
  refine ⟨fun h => ?_, fun h => ?_, fun h1 h2 => ?_⟩
  · simp [calculate_period_end, h]
  · subst h
    simp [calculate_period_end]
  · simp [calculate_period_end, h1, h2]

/-- Witness for the calculate_period_end theorem at a concrete input. -/
theorem calculate_period_end_spec_witness :
    (0 : Int) < 2
    ∧ (("month" : String) = "month" →
        calculate_period_end 10 "month" 2 = 10 + 30 * 2) :=
  ⟨by decide, ((calculate_period_end_spec 10 "month" 2 (by decide)).1)⟩

/-! ## Claim C10 -/

/-- Claim C10: when the Razorpay credentials are missing, every provider
operation returns the tagged uninitialized failure and attempts no external
call. -/
theorem provider_operations_fail_uninitialized
    (has_key_id has_key_secret : Bool)
    (hcred : ¬(has_key_id = true ∧ has_key_secret = true))
    (plan_id : String) (customer_user_id : Option String) (app_id : String)
    (apiCreate : ApiCreateOutcome) (subscription_id : String)
    (cancel_at_cycle_end : Bool) (apiCancel apiFetch : ApiOpOutcome) :
    (RazorpayProvider.init_client has_key_id has_key_secret).create_subscription
        plan_id customer_user_id app_id apiCreate = ([], uninitializedResult)
    ∧ (RazorpayProvider.init_client has_key_id has_key_secret).cancel_subscription
        subscription_id cancel_at_cycle_end apiCancel = ([], uninitializedResult)
    ∧ (RazorpayProvider.init_client has_key_id has_key_secret).fetch_subscription
        subscription_id apiFetch = ([], uninitializedResult) := by
  cases has_key_id with
  | true =>
    cases has_key_secret with
    | true => exact absurd ⟨rfl, rfl⟩ hcred
    | false => exact ⟨rfl, rfl, rfl⟩
  | false =>
    cases has_key_secret with
    | true => exact ⟨rfl, rfl, rfl⟩
    | false => exact ⟨rfl, rfl, rfl⟩

/-- Witness for the uninitialized-provider theorem at concrete inputs. -/
theorem provider_operations_fail_uninitialized_witness :
    ¬((false : Bool) = true ∧ (true : Bool) = true)
    ∧ (RazorpayProvider.init_client false true).create_subscription
        "plan_1" (some "u1") "a" (.ok (some "s1") none none)
        = ([], uninitializedResult) :=
  ⟨by decide,
   (provider_operations_fail_uninitialized false true (by decide)
      "plan_1" (some "u1") "a" (.ok (some "s1") none none) "sub_9" true
      (.ok none) (.ok none)).1⟩

/-! ## Claim C3 -/

/-- Claim C3: when no X-Razorpay-Signature header is present, the webhook
entry point performs no signature verification and processes the parsed
payload exactly as if it were authentic; the 400 invalid-signature response
can only arise when the header is present. -/
theorem webhook_signature_skipped_when_header_absent
    (secret_configured hmac_matches : Bool) (req : RequestModel)
    (st : DBState) (now : Time) (freshId : String) (wd : WebhookPayload)
    (hheader : req.signature_header = none) (hjson : req.json = some wd) :
    handle_razorpay_webhook secret_configured hmac_matches req st now freshId
      = (false,
         WebhookHttpResponse.processed wd.event
           (handle_webhook st now freshId wd "razorpay").2,
         (handle_webhook st now freshId wd "razorpay").1)
    ∧ ∀ (sc hm : Bool) (req2 : RequestModel) (st2 : DBState) (now2 : Time)
        (fid2 : String),
        (handle_razorpay_webhook sc hm req2 st2 now2 fid2).2.1
            = WebhookHttpResponse.invalidSignature →
        req2.signature_header ≠ none := by
  constructor
  · simp [handle_razorpay_webhook, hheader, hjson]
  · intro sc hm req2 st2 now2 fid2 hresp hnone
    cases hj : req2.json with
    | none => simp [handle_razorpay_webhook, hnone, hj] at hresp
    | some wd2 => simp [handle_razorpay_webhook, hnone, hj] at hresp

/-- Witness for the missing-signature-header theorem at concrete inputs. -/
theorem webhook_signature_skipped_when_header_absent_witness :
    (RequestModel.mk none (some activatedPayloadRzp1)).signature_header = none
    ∧ (RequestModel.mk none (some activatedPayloadRzp1)).json
        = some activatedPayloadRzp1
    ∧ handle_razorpay_webhook true true
        (RequestModel.mk none (some activatedPayloadRzp1)) fixtureSt0 0 "inv_1"
      = (false,
         WebhookHttpResponse.processed activatedPayloadRzp1.event
           (handle_webhook fixtureSt0 0 "inv_1" activatedPayloadRzp1 "razorpay").2,
         (handle_webhook fixtureSt0 0 "inv_1" activatedPayloadRzp1 "razorpay").1) :=
  ⟨rfl, rfl,
   (webhook_signature_skipped_when_header_absent true true
      (RequestModel.mk none (some activatedPayloadRzp1)) fixtureSt0 0 "inv_1"
      activatedPayloadRzp1 rfl rfl).1⟩

/-! ## Claim C4 -/

/-- sqlOptEq against a concrete non-NULL parameter is plain equality. -/
theorem sqlOptEq_some_right {a : Option String} {i : String} :
    sqlOptEq a (some i) = true ↔ a = some i := by
  cases a <;> simp [sqlOptEq]

/-- Claim C4: a webhook whose provider subscription id matches no local row
makes the handler return the structured error result Subscription not found
and leaves the store completely unchanged (shown for the charged and
authenticated handlers, the two cited in the claim). -/
theorem unknown_subscription_webhook_reports_error (st : DBState) (now : Time)
    (freshId : String) (payload : WebhookPayload) (i : String)
    (hauth : subEntityId payload = some i)
    (hcharged : (chargedSubEntity payload).id = some i)
    (hnone : ∀ s ∈ st.subscriptions, s.razorpay_subscription_id ≠ some i) :
    handle_razorpay_subscription_charged st now freshId payload
        = (st, ⟨"error", "Subscription not found"⟩)
    ∧ handle_razorpay_subscription_authenticated st payload
        = (st, ⟨"error", "Subscription not found"⟩) := by
  have hfindC : st.subscriptions.find?
      (fun s => sqlOptEq s.razorpay_subscription_id (chargedSubEntity payload).id)
        = none := by
    rw [List.find?_eq_none]
    intro s hs ht
    rw [hcharged] at ht
    exact hnone s hs (sqlOptEq_some_right.mp ht)
  have hfindA : st.subscriptions.find?
      (fun s => s.razorpay_subscription_id == some i) = none := by
    rw [List.find?_eq_none]
    intro s hs ht
    exact hnone s hs (by simpa using ht)
  constructor
  · simp [handle_razorpay_subscription_charged, hfindC]
  · simp [handle_razorpay_subscription_authenticated, hauth, hfindA]

/-- Witness for the unknown-subscription theorem: the activation payload for
rzp_1 arriving over the empty fixture store. -/
theorem unknown_subscription_webhook_reports_error_witness :
    subEntityId activatedPayloadRzp1 = some "rzp_1"
    ∧ (chargedSubEntity activatedPayloadRzp1).id = some "rzp_1"
    ∧ handle_razorpay_subscription_charged fixtureSt0 5 "inv_1"
        activatedPayloadRzp1 = (fixtureSt0, ⟨"error", "Subscription not found"⟩) :=
  ⟨rfl, rfl,
   (unknown_subscription_webhook_reports_error fixtureSt0 5 "inv_1"
      activatedPayloadRzp1 "rzp_1" rfl rfl
      (by intro s hs; simp [fixtureSt0] at hs)).1⟩

/-! ## Claim C5 -/

/-- The authenticated handler never writes to the event log. -/
theorem events_handler_authenticated (st : DBState) (payload : WebhookPayload) :
    (handle_razorpay_subscription_authenticated st payload).1.events
      = st.events := by
  unfold handle_razorpay_subscription_authenticated
  split
  · rfl
  · split <;> rfl

/-- The activated handler never writes to the event log. -/
theorem events_handler_activated (st : DBState) (now : Time)
    (payload : WebhookPayload) :
    (handle_razorpay_subscription_activated st now payload).1.events
      = st.events := by
  unfold handle_razorpay_subscription_activated
  split
  · rfl
  · split <;> rfl

/-- The charged handler never writes to the event log. -/
theorem events_handler_charged (st : DBState) (now : Time) (freshId : String)
    (payload : WebhookPayload) :
    (handle_razorpay_subscription_charged st now freshId payload).1.events
      = st.events := by
  simp only [handle_razorpay_subscription_charged]
  split
  · rfl
  · split <;> rfl

/-- The completed handler never writes to the event log. -/
theorem events_handler_completed (st : DBState) (payload : WebhookPayload) :
    (handle_razorpay_subscription_completed st payload).1.events = st.events := by
  unfold handle_razorpay_subscription_completed
  split
  · rfl
  · split <;> rfl

/-- The cancelled handler never writes to the event log. -/
theorem events_handler_cancelled (st : DBState) (payload : WebhookPayload) :
    (handle_razorpay_subscription_cancelled st payload).1.events = st.events := by
  unfold handle_razorpay_subscription_cancelled
  split
  · rfl
  · split <;> rfl

/-- Routing to a per-event handler never writes to the event log. -/
theorem events_dispatchWebhookEvent (st : DBState) (now : Time)
    (freshId : String) (payload : WebhookPayload) (provider event_type : String) :
    (dispatchWebhookEvent st now freshId payload provider event_type).1.events
      = st.events := by
  unfold dispatchWebhookEvent
  repeat' split
  all_goals first
    | rfl
    | apply events_handler_authenticated
    | apply events_handler_activated
    | apply events_handler_charged
    | apply events_handler_completed
    | apply events_handler_cancelled

/-- The audit row handle_webhook appends for one event type. -/
def loggedEntry (provider : String) (payload : WebhookPayload)
    (event_type : String) (processed : Bool) : EventLogEntry :=
  { event_type := event_type,
    razorpay_entity_id :=
      if provider == "razorpay" then (extractWebhookIds provider payload).1
      else none,
    paypal_entity_id :=
      if provider == "razorpay" then none
      else (extractWebhookIds provider payload).1,
    user_id := (extractWebhookIds provider payload).2,
    processed := processed }

/-- Claim C5: every payload carrying an event type is recorded in the event
log exactly twice by handle_webhook, once unprocessed under the original
event type before dispatch and once processed under the suffixed type after
dispatch, whatever result the per-event handler returns. -/
theorem webhook_event_logged_twice (st : DBState) (now : Time)
    (freshId : String) (payload : WebhookPayload) (provider event_type : String)
    (h : payload.event = some event_type) :
    (handle_webhook st now freshId payload provider).1.events
      = st.events
        ++ [loggedEntry provider payload event_type false,
            loggedEntry provider payload (event_type ++ "_processed") true] := by
  unfold handle_webhook
  rw [h]
  simp only [DBState.log_event, loggedEntry, events_dispatchWebhookEvent]
  simp [List.append_assoc]

/-- Witness for the logged-twice theorem at a concrete payload and store. -/
theorem webhook_event_logged_twice_witness :
    activatedPayloadRzp1.event = some "subscription.activated"
    ∧ (handle_webhook fixtureSt0 0 "inv_1" activatedPayloadRzp1
        "razorpay").1.events
      = fixtureSt0.events
        ++ [loggedEntry "razorpay" activatedPayloadRzp1
              "subscription.activated" false,
            loggedEntry "razorpay" activatedPayloadRzp1
              ("subscription.activated" ++ "_processed") true] :=
  ⟨rfl,
   webhook_event_logged_twice fixtureSt0 0 "inv_1" activatedPayloadRzp1
     "razorpay" "subscription.activated" rfl⟩

/-! ## Claim C6 -/

/-- Looking up the key just set returns the new value. -/
theorem lookup_setKey_self (m : Metadata) (k v : String) :
    (setKey m k v).lookup k = some v := by
  induction m with
  | nil => simp [setKey, List.lookup]
  | cons kv rest ih =>
    obtain ⟨k1, v1⟩ := kv
    by_cases h : (k1 == k) = true
    · simp [setKey, h, List.lookup]
    · have h2 : (k == k1) = false := by
        rw [beq_eq_false_iff_ne]
        intro he
        subst he
        simp at h
      simp [setKey, h, List.lookup, h2, ih]

/-- Setting one key leaves the lookup of any other key unchanged. -/
theorem lookup_setKey_ne (m : Metadata) (k k2 v : String) (h : k2 ≠ k) :
    (setKey m k v).lookup k2 = m.lookup k2 := by
  induction m with
  | nil => simp [setKey, List.lookup, beq_eq_false_iff_ne.mpr h]
  | cons kv rest ih =>
    obtain ⟨k1, v1⟩ := kv
    by_cases h1 : (k1 == k) = true
    · have hk1 : k1 = k := by simpa using h1
      subst hk1
      simp [setKey, List.lookup, beq_eq_false_iff_ne.mpr h]
    · by_cases h2 : (k2 == k1) = true
      · simp [setKey, h1, List.lookup, h2]
      · simp [setKey, h1, List.lookup, h2, ih]

/-- Claim C6: when the provider cancellation call raises or reports an error,
cancel_subscription still succeeds, returning status active with
cancellation_scheduled true, and the affected row keeps its active status
while its metadata records cancellation_scheduled = true. -/
theorem cancel_provider_failure_still_succeeds (st : DBState) (now : Time)
    (user_id subscription_id : String) (sub : Subscription)
    (outcome : ProviderCancelOutcome)
    (hfind : st.subscriptions.find?
        (fun s => s.id == subscription_id && s.user_id == user_id) = some sub)
    (hrzp : sub.razorpay_subscription_id.isSome = true)
    (hfail : outcome.isFailure = true)
    (hunique : ∀ s ∈ st.subscriptions, s.id = subscription_id → s = sub)
    (hactive : sub.status = "active") :
    (cancel_subscription st now user_id subscription_id outcome).2
        = Except.ok ⟨subscription_id, "active", true, sub.current_period_end,
            "Subscription will remain active until the end of the current billing period"⟩
    ∧ ∀ s2 ∈ (cancel_subscription st now user_id subscription_id
          outcome).1.subscriptions,
        s2.id = subscription_id →
          s2.status = "active"
          ∧ s2.metadata.lookup "cancellation_scheduled" = some "true" := by
  constructor
  · simp [cancel_subscription, hfind]
  · intro s2 hs2 hid2
    simp only [cancel_subscription, hfind] at hs2
    rw [List.mem_map] at hs2
    obtain ⟨s, hs, hs2eq⟩ := hs2
    by_cases hsid : (s.id == subscription_id) = true
    · have hseq : s = sub := hunique s hs (by simpa using hsid)
      subst hseq
      rw [if_pos hsid] at hs2eq
      subst hs2eq
      refine ⟨hactive, ?_⟩
      show (mergePatch s.metadata
        [("cancellation_scheduled", "true"),
         ("cancelled_at", toString now)]).lookup "cancellation_scheduled"
        = some "true"
      unfold mergePatch
      simp only [List.foldl]
      rw [lookup_setKey_ne _ _ _ _ (by decide), lookup_setKey_self]
    · rw [if_neg hsid] at hs2eq
      subst hs2eq
      exact absurd (by simp [hid2]) hsid

/-- Concrete store for the cancel-subscription witness: one active razorpay
subscription owned by u1. -/
def cancelFixtureSt : DBState :=
  { plans := [paidPlanA],
    users := [⟨"u1", none, none, none⟩],
    subscriptions := [⟨"sub_1", "u1", "plan_paid_a", some "rzp_1", none,
      "active", some 0, some 30, "a", []⟩],
    invoices := [], events := [], usage := [] }

/-- Witness for the cancel-subscription theorem at a concrete store and a
provider call that raises. -/
theorem cancel_provider_failure_still_succeeds_witness :
    (cancel_subscription cancelFixtureSt 7 "u1" "sub_1"
        (.raised "network down")).2
      = Except.ok ⟨"sub_1", "active", true, some 30,
          "Subscription will remain active until the end of the current billing period"⟩ :=
  (cancel_provider_failure_still_succeeds cancelFixtureSt 7 "u1" "sub_1"
    (⟨"sub_1", "u1", "plan_paid_a", some "rzp_1", none, "active", some 0,
      some 30, "a", []⟩ : Subscription)
    (.raised "network down") rfl rfl rfl
    (by
      intro s hs hid
      simp [cancelFixtureSt] at hs
      simp [hs])
    rfl).1

/-! ## Claim C7 -/

/-- Claim C7: a charged webhook for a known subscription whose payment entity
carries an invoice id inserts exactly one invoice row, whose status is Paid
when the payment status is captured and otherwise the payment status itself,
defaulting to pending. -/
theorem charged_inserts_one_invoice (st : DBState) (now : Time)
    (freshId : String) (payload : WebhookPayload) (sub : Subscription)
    (pe : PaymentEntity) (inv : String)
    (hfind : st.subscriptions.find?
        (fun s => sqlOptEq s.razorpay_subscription_id
          (chargedSubEntity payload).id) = some sub)
    (hpe : payload.payment.bind (fun w => w.entity) = some pe)
    (hinv : pe.invoice_id = some inv) :
    (handle_razorpay_subscription_charged st now freshId payload).1.invoices
      = st.invoices
        ++ [{ id := freshId, subscription_id := sub.id, user_id := sub.user_id,
              razorpay_invoice_id := some inv,
              amount := pe.amount.getD 0, currency := pe.currency.getD "INR",
              status := if pe.status = some "captured" then "Paid"
                        else pe.status.getD "pending",
              payment_id := pe.id, invoice_date := now,
              app_id := sub.app_id }] := by
  have hstatus :
      (if ((pe.status.getD "pending") == "captured") = true then "Paid"
       else pe.status.getD "pending")
        = (if pe.status = some "captured" then "Paid"
           else pe.status.getD "pending") := by
    cases hps : pe.status with
    | none => simp
    | some s0 =>
      by_cases hc : s0 = "captured"
      · simp [hc]
      · simp [hc, Option.getD]
  simp only [handle_razorpay_subscription_charged, hfind, hpe, hinv,
    create_resource_usage_record, Option.some_bind, Option.getD_some]
  rw [hstatus]

/-- Concrete store for the charged-invoice witness: one created razorpay
subscription awaiting its first charge. -/
def chargedFixtureSt : DBState :=
  { plans := [paidPlanA],
    users := [⟨"u1", none, none, none⟩],
    subscriptions := [⟨"sub_1", "u1", "plan_paid_a", some "rzp_1", none,
      "created", none, none, "a", []⟩],
    invoices := [], events := [], usage := [] }

/-- A subscription.charged payload for rzp_1 with a captured payment carrying
an invoice id. -/
def chargedPayloadRzp1 : WebhookPayload :=
  { event := some "subscription.charged",
    subscription := some ⟨none, none, some ⟨some "rzp_1", none⟩⟩,
    payment := some ⟨none, some ⟨some "pay_1", some "inv_rzp_1", some 100,
      some "INR", some "captured"⟩⟩ }

/-- Witness for the charged-invoice theorem: the captured payment yields a
Paid invoice row. -/
theorem charged_inserts_one_invoice_witness :
    (handle_razorpay_subscription_charged chargedFixtureSt 40 "inv_1"
        chargedPayloadRzp1).1.invoices
      = chargedFixtureSt.invoices
        ++ [{ id := "inv_1", subscription_id := "sub_1", user_id := "u1",
              razorpay_invoice_id := some "inv_rzp_1", amount := 100,
              currency := "INR",
              status := if (some "captured" : Option String) = some "captured"
                        then "Paid" else "captured",
              payment_id := some "pay_1", invoice_date := 40,
              app_id := "a" }] :=
  charged_inserts_one_invoice chargedFixtureSt 40 "inv_1" chargedPayloadRzp1
    (⟨"sub_1", "u1", "plan_paid_a", some "rzp_1", none, "created", none, none,
      "a", []⟩ : Subscription)
    (⟨some "pay_1", some "inv_rzp_1", some 100, some "INR",
      some "captured"⟩ : PaymentEntity)
    "inv_rzp_1" rfl rfl rfl

/-! ## Claim C8 -/

/-- Filtering a mapped list is mapping the filtered list. -/
theorem filter_map_comm (p : α → Bool) (f : α → α) (l : List α) :
    (l.map f).filter p = (l.filter (fun x => p (f x))).map f := by
  induction l with
  | nil => rfl
  | cons x xs ih =>
    simp only [List.map_cons, List.filter_cons]
    cases hpx : p (f x) <;> simp [hpx, ih]

/-- Predicates agreeing on the members filter alike. -/
theorem filter_congr_mem {p q : α → Bool} :
    ∀ {l : List α}, (∀ x ∈ l, p x = q x) → l.filter p = l.filter q := by
  intro l
  induction l with
  | nil => intro _; rfl
  | cons x xs ih =>
    intro h
    rw [List.filter_cons, List.filter_cons, h x (List.mem_cons_self x xs),
      ih (fun y hy => h y (List.mem_cons_of_mem x hy))]

/-- The period end never precedes its start when the repeat count is
non-negative. -/
theorem le_calculate_period_end (start_date : Time) (interval : String)
    (count : Int) (h : 0 ≤ count) :
    start_date ≤ calculate_period_end start_date interval count := by
  unfold calculate_period_end
  split
  · have h30 : (0 : Int) ≤ 30 * count := mul_nonneg (by norm_num) h
    linarith
  · split
    · have h365 : (0 : Int) ≤ 365 * count := mul_nonneg (by norm_num) h
      linarith
    · linarith

/-- Claim C8: after a charged event for a known subscription, every matching
row carries the fresh billing period starting now, and get_resource_usage for
that user and app reads the new all-zero usage row even when earlier usage
rows for the pair carry non-zero counters. -/
theorem charged_resets_resource_usage (st : DBState) (now : Time)
    (freshId : String) (payload : WebhookPayload) (sub : Subscription)
    (plan : Plan)
    (hfilter : st.subscriptions.filter
        (fun s => sqlOptEq s.razorpay_subscription_id
          (chargedSubEntity payload).id) = [sub])
    (honly : ∀ s ∈ st.subscriptions,
        activeFor sub.user_id sub.app_id s = true →
        sqlOptEq s.razorpay_subscription_id (chargedSubEntity payload).id = true)
    (hplan : st.plans.find? (fun q => q.id == sub.plan_id) = some plan)
    (hcount : 0 ≤ plan.interval_count) :
    (∀ s2 ∈ (handle_razorpay_subscription_charged st now freshId
        payload).1.subscriptions,
      sqlOptEq s2.razorpay_subscription_id (chargedSubEntity payload).id = true →
        s2.current_period_start = some now
        ∧ s2.current_period_end
            = some (calculate_period_end now plan.interval plan.interval_count))
    ∧ get_resource_usage (handle_razorpay_subscription_charged st now freshId
        payload).1 now sub.user_id sub.app_id = ⟨0, 0⟩ := by
  have hfind := find?_eq_of_filter_eq_singleton hfilter
  have hpredsub : sqlOptEq sub.razorpay_subscription_id
      (chargedSubEntity payload).id = true := by
    have hmem : sub ∈ st.subscriptions.filter
        (fun s => sqlOptEq s.razorpay_subscription_id
          (chargedSubEntity payload).id) := by
      rw [hfilter]
      simp
    exact (List.mem_filter.mp hmem).2
  have hsubs : (handle_razorpay_subscription_charged st now freshId
        payload).1.subscriptions
      = st.subscriptions.map (fun s =>
          if sqlOptEq s.razorpay_subscription_id (chargedSubEntity payload).id then
            { s with status := "active",
                     current_period_start := some now,
                     current_period_end := some (calculate_period_end now
                       plan.interval plan.interval_count),
                     metadata := mergePatch s.metadata
                       [("subscription",
                         subscriptionEntityString (chargedSubEntity payload))] }
          else s) := by
    simp only [handle_razorpay_subscription_charged, hfind, hplan,
      create_resource_usage_record]
    split <;> rfl
  have husage : (handle_razorpay_subscription_charged st now freshId
        payload).1.usage
      = st.usage ++ [⟨sub.user_id, sub.id, sub.app_id, now,
          calculate_period_end now plan.interval plan.interval_count, 0, 0⟩] := by
    simp only [handle_razorpay_subscription_charged, hfind, hplan,
      create_resource_usage_record]
    split <;> rfl
  constructor
  · intro s2 hs2 hmatch
    rw [hsubs, List.mem_map] at hs2
    obtain ⟨s, hs, hseq⟩ := hs2
    by_cases hp : sqlOptEq s.razorpay_subscription_id
        (chargedSubEntity payload).id = true
    · rw [if_pos hp] at hseq
      subst hseq
      exact ⟨rfl, rfl⟩
    · rw [if_neg hp] at hseq
      subst hseq
      exact absurd hmatch hp
  · have hqf : ∀ s ∈ st.subscriptions,
        activeFor sub.user_id sub.app_id
          (if sqlOptEq s.razorpay_subscription_id
              (chargedSubEntity payload).id then
            { s with status := "active",
                     current_period_start := some now,
                     current_period_end := some (calculate_period_end now
                       plan.interval plan.interval_count),
                     metadata := mergePatch s.metadata
                       [("subscription",
                         subscriptionEntityString (chargedSubEntity payload))] }
          else s)
          = sqlOptEq s.razorpay_subscription_id (chargedSubEntity payload).id := by
      intro s hs
      by_cases hp : sqlOptEq s.razorpay_subscription_id
          (chargedSubEntity payload).id = true
      · rw [if_pos hp, hp]
        have hssub : s = sub := by
          have hmemf : s ∈ st.subscriptions.filter
              (fun x => sqlOptEq x.razorpay_subscription_id
                (chargedSubEntity payload).id) :=
            List.mem_filter.mpr ⟨hs, hp⟩
          rw [hfilter] at hmemf
          simpa using hmemf
        subst hssub
        simp [activeFor]
      · rw [Bool.not_eq_true] at hp
        rw [if_neg (by simp [hp]), hp]
        by_cases hact : activeFor sub.user_id sub.app_id s = true
        · exact absurd (honly s hs hact) (by simp [hp])
        · simpa using hact
    have hfiltermap :
        ((handle_razorpay_subscription_charged st now freshId
            payload).1.subscriptions.filter
          (activeFor sub.user_id sub.app_id))
          = [{ sub with status := "active",
                        current_period_start := some now,
                        current_period_end := some (calculate_period_end now
                          plan.interval plan.interval_count),
                        metadata := mergePatch sub.metadata
                          [("subscription",
                            subscriptionEntityString (chargedSubEntity payload))] }] := by
      rw [hsubs, filter_map_comm, filter_congr_mem hqf, hfilter]
      simp [hpredsub]
    unfold get_resource_usage
    rw [hfiltermap]
    simp only [pickLatest]
    rw [husage]
    have hnewpass : (fun r : ResourceUsage =>
        r.user_id == sub.user_id && r.subscription_id == sub.id &&
        r.app_id == sub.app_id &&
        decide (r.billing_period_start ≤ now) &&
        decide (now ≤ r.billing_period_end))
        (⟨sub.user_id, sub.id, sub.app_id, now,
          calculate_period_end now plan.interval plan.interval_count, 0, 0⟩
          : ResourceUsage) = true := by
      simp [le_calculate_period_end now plan.interval plan.interval_count hcount]
    have hbeats : ∀ y ∈ st.usage.filter (fun r : ResourceUsage =>
        r.user_id == sub.user_id && r.subscription_id == sub.id &&
        r.app_id == sub.app_id &&
        decide (r.billing_period_start ≤ now) &&
        decide (now ≤ r.billing_period_end)),
        (fun r s : ResourceUsage =>
          decide (s.billing_period_start < r.billing_period_start)) y
          (⟨sub.user_id, sub.id, sub.app_id, now,
            calculate_period_end now plan.interval plan.interval_count, 0, 0⟩
            : ResourceUsage) = false := by
      intro y hy
      have hy2 := (List.mem_filter.mp hy).2
      simp only [Bool.and_eq_true, decide_eq_true_eq] at hy2
      simp only [decide_eq_false_iff_not]
      exact not_lt.mpr hy2.1.2
    rw [@filter_append_singleton_pos ResourceUsage
        (fun r : ResourceUsage =>
          r.user_id == sub.user_id && r.subscription_id == sub.id &&
          r.app_id == sub.app_id &&
          decide (r.billing_period_start ≤ now) &&
          decide (now ≤ r.billing_period_end))
        st.usage
        (⟨sub.user_id, sub.id, sub.app_id, now,
          calculate_period_end now plan.interval plan.interval_count, 0, 0⟩)
        hnewpass,
      @pickLatest_append_singleton ResourceUsage
        (fun r s : ResourceUsage =>
          decide (s.billing_period_start < r.billing_period_start))
        (st.usage.filter (fun r : ResourceUsage =>
          r.user_id == sub.user_id && r.subscription_id == sub.id &&
          r.app_id == sub.app_id &&
          decide (r.billing_period_start ≤ now) &&
          decide (now ≤ r.billing_period_end)))
        (⟨sub.user_id, sub.id, sub.app_id, now,
          calculate_period_end now plan.interval plan.interval_count, 0, 0⟩)
        hbeats]

/-- Concrete subscription for the usage-reset witness: active paid razorpay
subscription in its first period. -/
def c8Sub : Subscription :=
  ⟨"sub_1", "u1", "plan_paid_a", some "rzp_1", none, "active", some 0,
   some 30, "a", []⟩

/-- Concrete store for the usage-reset witness: the prior billing period
already carries non-zero usage counters and still contains the charge
instant. -/
def c8FixtureSt : DBState :=
  { plans := [paidPlanA],
    users := [⟨"u1", none, none, none⟩],
    subscriptions := [c8Sub],
    invoices := [], events := [],
    usage := [⟨"u1", "sub_1", "a", 0, 30, 5, 3⟩] }

/-- Witness for the usage-reset theorem: after the charge at instant 10 the
counters read back as zero although the prior row holds 5 and 3. -/
theorem charged_resets_resource_usage_witness :
    get_resource_usage
        (handle_razorpay_subscription_charged c8FixtureSt 10 "inv_2"
          chargedPayloadRzp1).1 10 c8Sub.user_id c8Sub.app_id
      = ⟨0, 0⟩ :=
  (charged_resets_resource_usage c8FixtureSt 10 "inv_2" chargedPayloadRzp1
    c8Sub paidPlanA rfl (by decide) rfl (by decide)).2

end PaymentGateway
